import Mathlib

/-!
# Verification of the Boxer request-dispatch core

A shallow embedding, in Lean 4, of the request dispatch and error-containment
pipeline of the ASF Infrastructure Boxer suite:

* `server/main.py` — `Server.handle_request`: routing, body parsing, handler
  lookup, session storage-handle release, JSON serialization, and the
  two-mode (traceback-disclosure on/off) error containment;
* `server/endpoints/repository.py` — the `process` handler's access-control
  and action-selection prefix.

Python strings are sequences of Unicode code points, so the string operations
of the source (`split`, `endswith`, slicing) are embedded at the level of
`String.data : List Char`.  External collaborators (the form-data parser, the
session provider, the uuid generator, handler plugins) are inputs of the
model: each request carries the parser's outcome, the session provider's
session is an argument, and the uuid is an argument.  Writes to the
operational error stream (`sys.stderr.write`) are collected in a list, one
element per `write` call.
-/

namespace Boxer

/-! ## Python string primitives (code-point semantics) -/

/-- Python `s.endswith(suffix)`: the final code points of `s` are `suffix`. -/
def pyEndsWith (s suffix : String) : Bool :=
  suffix.data.isSuffixOf s.data

/-- Python `s[:-n]` (for `n > 0`): drop the last `n` code points
(empty when `len(s) ≤ n`). -/
def pyDropRight (s : String) (n : Nat) : String :=
  ⟨s.data.take (s.data.length - n)⟩

/-- Python `s[:n]`: the first `n` code points. -/
def pyTake (s : String) (n : Nat) : String :=
  ⟨s.data.take n⟩

/-- Python `s.split(sep)` for a one-character separator `sep` splits at every
occurrence, keeping empty pieces.  This is `String.split s (· == sep)`,
written at the code-point level (`String.split_of_valid` proves the two
presentations equal). -/
def pySplitChar (s : String) (sep : Char) : List String :=
  (s.data.splitOnP (fun c => c == sep)).map String.mk

/-! ## JSON values and Python truthiness -/

/-- JSON-serializable Python values (the results handlers return). -/
inductive Json where
  | null
  | bool (b : Bool)
  | num (n : Int)
  | str (s : String)
  | arr (items : List Json)
  | obj (entries : List (String × Json))

/-- Python truthiness (`if output ...`) of a JSON-serializable value:
`None`, `False`, `0`, `""`, `[]` and `{}` are falsy, everything else truthy. -/
def Json.truthy : Json → Bool
  | .null => false
  | .bool b => b
  | .num n => n != 0
  | .str s => !s.data.isEmpty
  | .arr items => !items.isEmpty
  | .obj entries => !entries.isEmpty

/-! ## `json.dumps(output, indent=2)`

The CPython `json` encoder with its defaults (`ensure_ascii=True`) and
`indent=2`: strings are double-quoted with control and non-ASCII characters
escaped (`\uXXXX`, surrogate pairs above the BMP), integers rendered in
decimal, containers spread one element per line with two-space indent steps,
`", "`-free item separators (`,` then newline) and `": "` key separators,
and empty containers rendered inline. -/

/-- The sixteen lowercase hexadecimal digit characters (`'%x'` formatting). -/
def hexDigitChar (d : Nat) : Char :=
  "0123456789abcdef".data.getD d '0'

/-- Python `'%04x' % n` for `n < 0x10000`. -/
def hex4 (n : Nat) : String :=
  ⟨[hexDigitChar (n / 4096 % 16), hexDigitChar (n / 256 % 16),
    hexDigitChar (n / 16 % 16), hexDigitChar (n % 16)]⟩

/-- The decimal digit loop of `str(n)`: peel the least significant digit onto
the accumulator until the leading digit; `fuel` bounds the recursion and is
always sufficient at `n + 1`. -/
def natDigitsCore : Nat → Nat → List Char → List Char
  | 0, _, acc => acc
  | fuel + 1, n, acc =>
    if n < 10 then hexDigitChar n :: acc
    else natDigitsCore fuel (n / 10) (hexDigitChar (n % 10) :: acc)

/-- Python `str(n)` for a natural number. -/
def natDecimal (n : Nat) : String := ⟨natDigitsCore (n + 1) n []⟩

/-- Python `str(i)` / JSON integer rendering. -/
def intDecimal (i : Int) : String :=
  if i < 0 then "-" ++ natDecimal i.natAbs else natDecimal i.toNat

/-- The escaped rendering of one character inside a JSON string literal,
per CPython `json` with `ensure_ascii=True`. -/
def escapeChar (c : Char) : String :=
  if c = '"' then "\\\""
  else if c = '\\' then "\\\\"
  else if c = '\n' then "\\n"
  else if c = '\r' then "\\r"
  else if c = '\t' then "\\t"
  else if c.toNat = 8 then "\\b"
  else if c.toNat = 12 then "\\f"
  else if c.toNat < 32 ∨ c.toNat ≥ 127 then
    if c.toNat < 65536 then "\\u" ++ hex4 c.toNat
    else
      "\\u" ++ hex4 (55296 + (c.toNat - 65536) / 1024) ++
      "\\u" ++ hex4 (56320 + (c.toNat - 65536) % 1024)
  else String.singleton c

/-- Concatenation of a list of strings. -/
def concatList : List String → String
  | [] => ""
  | x :: xs => x ++ concatList xs

/-- A JSON string literal: double quotes around the escaped characters. -/
def encodeJsonString (s : String) : String :=
  "\"" ++ concatList (s.data.map escapeChar) ++ "\""

/-- `n` spaces. -/
def spaces (n : Nat) : String := String.mk (List.replicate n ' ')

/-- Join a list of strings with a separator. -/
def joinSep (sep : String) : List String → String
  | [] => ""
  | [x] => x
  | x :: y :: xs => x ++ sep ++ joinSep sep (y :: xs)

mutual

/-- `json.dumps(v, indent=2)` at current indentation width `ind`. -/
def Json.dumps (ind : Nat) : Json → String
  | .null => "null"
  | .bool true => "true"
  | .bool false => "false"
  | .num n => intDecimal n
  | .str s => encodeJsonString s
  | .arr [] => "[]"
  | .arr (x :: xs) =>
    "[\n" ++ joinSep ",\n" (Json.dumpsItems (ind + 2) (x :: xs)) ++
    "\n" ++ spaces ind ++ "]"
  | .obj [] => "\x7b\x7d"
  | .obj (kv :: kvs) =>
    "\x7b\n" ++ joinSep ",\n" (Json.dumpsEntries (ind + 2) (kv :: kvs)) ++
    "\n" ++ spaces ind ++ "\x7d"

/-- The indented renderings of the elements of a JSON array. -/
def Json.dumpsItems (ind : Nat) : List Json → List String
  | [] => []
  | x :: xs => (spaces ind ++ Json.dumps ind x) :: Json.dumpsItems ind xs

/-- The indented `"key": value` renderings of the entries of a JSON object. -/
def Json.dumpsEntries (ind : Nat) : List (String × Json) → List String
  | [] => []
  | (k, v) :: kvs =>
    (spaces ind ++ encodeJsonString k ++ ": " ++ Json.dumps ind v) ::
    Json.dumpsEntries ind kvs

end

/-- `json.dumps(output, indent=2)` as called by `handle_request`. -/
def jsonDumps (v : Json) : String := Json.dumps 0 v

/-! ## Data model of the dispatch core (from `server/main.py`) -/

/-- `BOXER_VERSION = "0.1.0"`. -/
def BOXER_VERSION : String := "0.1.0"

/-- Session credentials (`session.credentials`), absent when not logged in. -/
structure Credentials where
  uid : String
  admin : Bool
  member : Bool

/-- The per-request session object: optional credentials and an optional
lazily-attached database (storage) handle.  The handle is modelled by its
presence. -/
structure Session where
  credentials : Option Credentials
  database : Option Unit

/-- Parsed form data: a mapping from field names to values
(`plugins.formdata.parse_formdata`'s result). -/
abbrev FormData := List (String × Json)

/-- An `aiohttp.web.Response`: headers, status and body text. -/
structure Response where
  headers : List (String × String)
  status : Nat
  text : String

/-- What a handler's `exec` hands back on normal return: `None`, a
JSON-serializable value, or a pre-built raw `Response`. -/
inductive Output where
  | none
  | json (v : Json)
  | raw (r : Response)

/-- The outcome of one handler invocation: normal return with an output, or
an exception whose formatted traceback (`"\n".join(traceback.format_exception(...))`)
is `err`; either way the session as the handler left it. -/
inductive ExecResult where
  | ok (output : Output) (session : Session)
  | exc (err : String) (session : Session)

/-- A registered endpoint handler (`plugins.basetypes.Endpoint`): its `exec`
takes the session and the parsed form data. -/
structure Handler where
  exec : Session → FormData → ExecResult

/-- The `server:` section of the configuration; `traceback` is the
traceback-disclosure flag (`self.config.server.traceback`). -/
structure ServerConfig where
  traceback : Bool

/-- The loaded configuration, as far as `handle_request` consults it. -/
structure Config where
  server : ServerConfig

/-- The server: configuration and the handler registry `self.handlers`. -/
structure Server where
  config : Config
  handlers : List (String × Handler)

/-- An incoming HTTP request: its path, and the outcome of
`plugins.formdata.parse_formdata(body_type, request)` for a given body type
(`.error msg` models a raised `ValueError` with message `msg`). -/
structure Request where
  path : String
  parseFormdata : String → Except String FormData

/-- The observable outcome of `handle_request`: the HTTP response, the
sequence of strings written to `sys.stderr` (one per `write` call), the
final state of the request's session if one was created, and whether a
handler was invoked. -/
structure HandleResult where
  response : Response
  stderrWrites : List String
  sessionAfter : Option Session
  handlerInvoked : Bool

/-- The router: from the request path, the endpoint name and body type.
`handler = request.path.split("/")[-1]`; a trailing `".json"` selects body
type `"json"` and is stripped, otherwise the body type is `"form"`. -/
def route (path : String) : String × String :=
  let handler := (pySplitChar path '/').getLastD ""
  if pyEndsWith handler ".json" then (pyDropRight handler 5, "json")
  else (handler, "form")

/-- `if session.database: session.database = None` — release the session's
storage handle if one is attached. -/
def releaseDatabase (s : Session) : Session :=
  if s.database.isSome then { s with database := none } else s

/-- `Server.handle_request` from `server/main.py`.

`session` is the session `plugins.session.get_session` would return (only
consulted when a handler is found), `uuid4` the string form of the
`uuid.uuid4()` that would be drawn (only consulted in the
disclosure-disabled failure branch). -/
def Server.handle_request (srv : Server) (session : Session) (uuid4 : String)
    (req : Request) : HandleResult :=
  let headers : List (String × String) :=
    [("Server", "ASF Infra Boxer Suite v/" ++ BOXER_VERSION)]
  let rt := route req.path
  let handler := rt.1
  let body_type := rt.2
  match req.parseFormdata body_type with
  | .error e =>
    { response := { headers := headers, status := 400, text := e },
      stderrWrites := [], sessionAfter := none, handlerInvoked := false }
  | .ok indata =>
    match srv.handlers.lookup handler with
    | some h =>
      match h.exec session indata with
      | .ok output s1 =>
        let s2 := releaseDatabase s1
        let headers2 := headers ++ [("content-type", "application/json")]
        match output with
        | .json v =>
          if v.truthy then
            let jsout := jsonDumps v
            { response :=
                { headers := headers2 ++ [("Content-Length", natDecimal jsout.length)],
                  status := 200, text := jsout },
              stderrWrites := [], sessionAfter := some s2, handlerInvoked := true }
          else
            { response := { headers := headers2, status := 404, text := "Content not found" },
              stderrWrites := [], sessionAfter := some s2, handlerInvoked := true }
        | .raw r =>
          { response := r, stderrWrites := [], sessionAfter := some s2,
            handlerInvoked := true }
        | .none =>
          { response := { headers := headers2, status := 404, text := "Content not found" },
            stderrWrites := [], sessionAfter := some s2, handlerInvoked := true }
      | .exc err s1 =>
        let s2 := releaseDatabase s1
        if srv.config.server.traceback then
          { response := { headers := headers, status := 500,
                          text := "API error occurred: \n" ++ err },
            stderrWrites := [], sessionAfter := some s2, handlerInvoked := true }
        else
          let eid := pyTake uuid4 18
          { response := { headers := headers, status := 500,
                          text := "API error occurred. The application journal will have " ++
                                  "information. Error ID: " ++ eid },
            stderrWrites :=
              ("API Endpoint " ++ req.path ++ " got into trouble (" ++ eid ++ "): \n") ::
              (pySplitChar err '\n').map (fun line => eid ++ ": " ++ line ++ "\n"),
            sessionAfter := some s2, handlerInvoked := true }
    | none =>
      { response := { headers := headers, status := 404, text := "API Endpoint not found!" },
        stderrWrites := [], sessionAfter := none, handlerInvoked := false }

/-! ## The repository endpoint (from `server/endpoints/repository.py`) -/

/-- The first two steps of `process` in `endpoints/repository.py`: reject
callers without credentials, then act only on `action == "create"`; a fall
through the `if` chain returns `None`.  The `"create"` branch performs
external I/O (LDAP, GitHub, filesystem, subprocesses) and is therefore a
parameter `createAction` of the model. -/
def repository_process (createAction : Session → FormData → Option Json)
    (session : Session) (indata : FormData) : Option Json :=
  if session.credentials.isNone then
    some (.obj [("okay", .bool false),
                ("message", .str "You need to be logged in to access this end point")])
  else
    match indata.lookup "action" with
    | some (.str a) => if a = "create" then createAction session indata else none
    | _ => none

/-- Lift a Python optional return value to a handler `Output`. -/
def outputOfOption : Option Json → Output
  | some v => .json v
  | none => .none

/-- `register(server)` of the repository endpoint: an `Endpoint` whose `exec`
runs `process` (which never touches `session.database` and returns rather
than raises on its modelled paths). -/
def repository_register (createAction : Session → FormData → Option Json) : Handler :=
  { exec := fun session indata =>
      .ok (outputOfOption (repository_process createAction session indata)) session }

/-- A server whose traceback-disclosure flag is `tb` and whose registry is
`handlers`. -/
def serverWith (tb : Bool) (handlers : List (String × Handler)) : Server :=
  { config := { server := { traceback := tb } }, handlers := handlers }

/-! ## Concrete fixtures for witnesses and counterexamples -/

/-- A session with no credentials and no storage handle. -/
def emptySession : Session := ⟨none, none⟩

/-- A logged-in, non-admin, non-member session without a storage handle. -/
def userSession : Session := ⟨some ⟨"humbedooh", false, false⟩, none⟩

/-- A sample `str(uuid.uuid4())` value. -/
def sampleUuid : String := "12345678-1234-5678-9abc-def012345678"

/-- A request whose body parses to the given form data in either body type. -/
def formRequest (p : String) (d : FormData) : Request := ⟨p, fun _ => .ok d⟩

/-- A request with an empty, well-formed body. -/
def okRequest (p : String) : Request := formRequest p []

/-- A handler that returns `None` and leaves the session alone. -/
def idleHandler : Handler := ⟨fun s _ => .ok .none s⟩

/-- A handler that returns a non-empty mapping. -/
def okJsonHandler : Handler := ⟨fun s _ => .ok (.json (.obj [("okay", .bool true)])) s⟩

/-- A handler that lazily attaches the database handle to the session and
returns a non-empty mapping. -/
def dbAcquiringHandler : Handler :=
  ⟨fun s _ => .ok (.json (.obj [("okay", .bool true)])) { s with database := some () }⟩

/-- A handler that raises; the formatted traceback has two lines. -/
def raisingHandler : Handler :=
  ⟨fun s _ => .exc "Traceback (most recent call last):\n  boom" s⟩

/-- A repository `"create"` branch that reports nothing (never exercised by
the claims settled here). -/
def noCreate : Session → FormData → Option Json := fun _ _ => none

/-! ## The serialized JSON text is ASCII, so its code-point count is its
UTF-8 byte count

`handle_request` sets `Content-Length` to `len(jsout)` — a count of code
points.  CPython's encoder escapes every non-ASCII character
(`ensure_ascii=True` is the default), so the count of code points coincides
with the byte length of the UTF-8 wire encoding.  `AsciiOnly` and the
following lemmas make that argument. -/

/-- Every code point of `s` is in the ASCII range. -/
def AsciiOnly (s : String) : Prop := ∀ c ∈ s.data, c.toNat < 128

instance (s : String) : Decidable (AsciiOnly s) :=
  List.decidableBAll _ s.data

theorem asciiOnly_append {a b : String} (ha : AsciiOnly a) (hb : AsciiOnly b) :
    AsciiOnly (a ++ b) := by
  intro c hc
  rw [String.data_append] at hc
  rcases List.mem_append.mp hc with h | h
  · exact ha c h
  · exact hb c h

theorem hexDigitChar_ascii (d : Nat) : (hexDigitChar d).toNat < 128 := by
  by_cases h : d < 16
  · interval_cases d <;> decide
  · unfold hexDigitChar
    rw [List.getD_eq_default]
    · decide
    · simpa using Nat.le_of_not_lt h

theorem hex4_ascii (n : Nat) : AsciiOnly (hex4 n) := by
  intro c hc
  simp only [hex4, List.mem_cons, List.not_mem_nil, or_false] at hc
  rcases hc with h | h | h | h <;> (subst h; exact hexDigitChar_ascii _)

theorem natDigitsCore_ascii (fuel n : Nat) (acc : List Char)
    (hacc : ∀ c ∈ acc, c.toNat < 128) :
    ∀ c ∈ natDigitsCore fuel n acc, c.toNat < 128 := by
  induction fuel generalizing n acc with
  | zero => exact hacc
  | succ fuel ih =>
    intro c hc
    unfold natDigitsCore at hc
    split at hc
    · rcases List.mem_cons.mp hc with h | h
      · subst h; exact hexDigitChar_ascii _
      · exact hacc c h
    · refine ih (n / 10) _ ?_ c hc
      intro c hc
      rcases List.mem_cons.mp hc with h | h
      · subst h; exact hexDigitChar_ascii _
      · exact hacc c h

theorem natDecimal_ascii (n : Nat) : AsciiOnly (natDecimal n) := by
  intro c hc
  exact natDigitsCore_ascii (n + 1) n [] (by simp) c hc

theorem intDecimal_ascii (i : Int) : AsciiOnly (intDecimal i) := by
  unfold intDecimal
  split
  · exact asciiOnly_append (by decide) (natDecimal_ascii _)
  · exact natDecimal_ascii _

theorem escapeChar_ascii (c : Char) : AsciiOnly (escapeChar c) := by
  unfold escapeChar
  split
  · decide
  split
  · decide
  split
  · decide
  split
  · decide
  split
  · decide
  split
  · decide
  split
  · decide
  split
  · split
    · exact asciiOnly_append (by decide) (hex4_ascii _)
    · refine asciiOnly_append (asciiOnly_append (asciiOnly_append ?_ (hex4_ascii _)) ?_)
        (hex4_ascii _)
      · decide
      · decide
  · rename_i h1 h2 h3 h4 h5 h6 h7 h8
    intro x hx
    have hd : (String.singleton c).data = [c] := rfl
    rw [hd, List.mem_singleton] at hx
    subst hx
    omega

theorem concatList_ascii (l : List String) (h : ∀ s ∈ l, AsciiOnly s) :
    AsciiOnly (concatList l) := by
  induction l with
  | nil => intro c hc; simp [concatList] at hc
  | cons x xs ih =>
    exact asciiOnly_append (h x (by simp)) (ih (fun s hs => h s (List.mem_cons_of_mem _ hs)))

theorem encodeJsonString_ascii (s : String) : AsciiOnly (encodeJsonString s) := by
  refine asciiOnly_append (asciiOnly_append (by decide) ?_) (by decide)
  refine concatList_ascii _ ?_
  intro t ht
  rcases List.mem_map.mp ht with ⟨c, _, rfl⟩
  exact escapeChar_ascii c

theorem spaces_ascii (n : Nat) : AsciiOnly (spaces n) := by
  intro c hc
  simp only [spaces] at hc
  have := List.eq_of_mem_replicate hc
  subst this
  decide

theorem joinSep_ascii (sep : String) (hsep : AsciiOnly sep) (l : List String)
    (h : ∀ s ∈ l, AsciiOnly s) : AsciiOnly (joinSep sep l) := by
  induction l with
  | nil => intro c hc; simp [joinSep] at hc
  | cons x xs ih =>
    cases xs with
    | nil => exact h x (by simp)
    | cons y ys =>
      refine asciiOnly_append (asciiOnly_append (h x (by simp)) hsep) ?_
      exact ih (fun s hs => h s (List.mem_cons_of_mem _ hs))

mutual

theorem Json.dumps_ascii (ind : Nat) : (v : Json) → AsciiOnly (Json.dumps ind v)
  | .null => show AsciiOnly "null" by decide
  | .bool true => show AsciiOnly "true" by decide
  | .bool false => show AsciiOnly "false" by decide
  | .num n => intDecimal_ascii n
  | .str s => encodeJsonString_ascii s
  | .arr [] => show AsciiOnly "[]" by decide
  | .arr (x :: xs) =>
    show AsciiOnly ("[\n" ++ joinSep ",\n" (Json.dumpsItems (ind + 2) (x :: xs)) ++
        "\n" ++ spaces ind ++ "]") from
      asciiOnly_append (asciiOnly_append (asciiOnly_append
        (asciiOnly_append (by decide)
          (joinSep_ascii ",\n" (by decide) _ (Json.dumpsItems_ascii (ind + 2) (x :: xs))))
        (by decide)) (spaces_ascii ind)) (by decide)
  | .obj [] => show AsciiOnly "\x7b\x7d" by decide
  | .obj (kv :: kvs) =>
    show AsciiOnly ("\x7b\n" ++ joinSep ",\n" (Json.dumpsEntries (ind + 2) (kv :: kvs)) ++
        "\n" ++ spaces ind ++ "\x7d") from
      asciiOnly_append (asciiOnly_append (asciiOnly_append
        (asciiOnly_append (by decide)
          (joinSep_ascii ",\n" (by decide) _ (Json.dumpsEntries_ascii (ind + 2) (kv :: kvs))))
        (by decide)) (spaces_ascii ind)) (by decide)

theorem Json.dumpsItems_ascii (ind : Nat) :
    (items : List Json) → ∀ s ∈ Json.dumpsItems ind items, AsciiOnly s
  | [] => by intro s hs; simp [Json.dumpsItems] at hs
  | x :: xs => by
    intro s hs
    replace hs : s ∈ (spaces ind ++ Json.dumps ind x) :: Json.dumpsItems ind xs := hs
    rcases List.mem_cons.mp hs with h | h
    · subst h
      exact asciiOnly_append (spaces_ascii ind) (Json.dumps_ascii ind x)
    · exact Json.dumpsItems_ascii ind xs s h

theorem Json.dumpsEntries_ascii (ind : Nat) :
    (entries : List (String × Json)) → ∀ s ∈ Json.dumpsEntries ind entries, AsciiOnly s
  | [] => by intro s hs; simp [Json.dumpsEntries] at hs
  | (k, v) :: kvs => by
    intro s hs
    replace hs : s ∈ (spaces ind ++ encodeJsonString k ++ ": " ++ Json.dumps ind v) ::
        Json.dumpsEntries ind kvs := hs
    rcases List.mem_cons.mp hs with h | h
    · subst h
      exact asciiOnly_append (asciiOnly_append (asciiOnly_append (spaces_ascii ind)
        (encodeJsonString_ascii k)) (by decide)) (Json.dumps_ascii ind v)
    · exact Json.dumpsEntries_ascii ind kvs s h

end

theorem jsonDumps_ascii (v : Json) : AsciiOnly (jsonDumps v) :=
  Json.dumps_ascii 0 v

/-- A code point below `128` occupies one byte in UTF-8. -/
theorem utf8Size_of_ascii (c : Char) (h : c.toNat < 128) : c.utf8Size = 1 := by
  unfold Char.utf8Size
  have hv : c.val ≤ UInt32.ofNatCore 0x7F (by decide) := by
    have h1 : c.val.toBitVec.toNat < 128 := h
    exact BitVec.le_def.mpr (by simpa using Nat.le_of_lt_succ h1)
  simp only [if_pos hv]

/-- For an ASCII-only string the UTF-8 byte length is the code-point count,
i.e. Python's `len`. -/
theorem utf8ByteSize_of_ascii (s : String) (h : AsciiOnly s) :
    s.utf8ByteSize = s.length := by
  cases s with
  | mk data =>
    simp only [String.utf8ByteSize_mk, String.length]
    induction data with
    | nil => rfl
    | cons c cs ih =>
      rw [String.utf8Len_cons, utf8Size_of_ascii c (h c (by simp)), List.length_cons]
      rw [ih]
      intro x hx
      exact h x (List.mem_cons_of_mem _ hx)

/-! ## Routing lemmas -/

/-- Splitting `"/api/" ++ n` at `'/'` when `n` carries no slash:
the pieces are `""`, `"api"` and `n`. -/
theorem pySplitChar_api (n : String) (h : ∀ c ∈ n.data, c ≠ '/') :
    pySplitChar ("/api/" ++ n) '/' = ["", "api", n] := by
  unfold pySplitChar
  have hd : ("/api/" ++ n).data = [] ++ '/' :: (['a', 'p', 'i'] ++ '/' :: n.data) := by
    rw [String.data_append]; rfl
  rw [hd, List.splitOnP_first _ _ (by decide) '/' (by decide) _,
      List.splitOnP_first _ _ (by decide) '/' (by decide) _,
      List.splitOnP_eq_single]
  · rfl
  · intro x hx
    simpa using h x hx

/-- The session storage handle is absent after `releaseDatabase`. -/
theorem releaseDatabase_database (s : Session) : (releaseDatabase s).database = none := by
  rcases s with ⟨c, d⟩
  cases d <;> rfl

/-- Routing `"/api/" ++ n` for a slash-free `n` that does not end in
`".json"`: endpoint `n`, body type `"form"`. -/
theorem route_api_form (n : String) (hs : ∀ c ∈ n.data, c ≠ '/')
    (hj : pyEndsWith n ".json" = false) :
    route ("/api/" ++ n) = (n, "form") := by
  unfold route
  rw [pySplitChar_api n hs]
  have hlast : (["", "api", n] : List String).getLastD "" = n := rfl
  rw [hlast]
  simp only [hj]
  rfl

/-- Routing `"/api/" ++ n ++ ".json"` for a slash-free `n`: endpoint `n`,
body type `"json"`. -/
theorem route_api_json (n : String) (hs : ∀ c ∈ n.data, c ≠ '/') :
    route ("/api/" ++ n ++ ".json") = (n, "json") := by
  unfold route
  rw [String.append_assoc,
      pySplitChar_api (n ++ ".json") (by
        intro c hc
        rw [String.data_append] at hc
        rcases List.mem_append.mp hc with h | h
        · exact hs c h
        · have hd : ".json".data = ['.', 'j', 's', 'o', 'n'] := rfl
          rw [hd] at h
          fin_cases h <;> decide)]
  have hlast : (["", "api", n ++ ".json"] : List String).getLastD "" = n ++ ".json" := rfl
  rw [hlast]
  have hsuffix : pyEndsWith (n ++ ".json") ".json" = true := by
    unfold pyEndsWith
    rw [String.data_append]
    exact List.isSuffixOf_iff_suffix.mpr (List.suffix_append _ _)
  have hdrop : pyDropRight (n ++ ".json") 5 = n := by
    unfold pyDropRight
    rw [String.data_append]
    have h5 : (".json".data).length = 5 := rfl
    rw [List.length_append, h5, Nat.add_sub_cancel, List.take_left]
  simp only [hsuffix, if_true, hdrop]

/-! ## Claims -/

/-- C2: for every dispatched request in which the session acquired a storage
handle, the handle is released (the session's database field set to absent)
on every exit path of dispatch — normal handler return, raw pass-through,
empty result, and handler failure in both disclosure modes. -/
theorem c2_storage_handle_released (srv : Server) (session : Session)
    (uuid4 : String) (req : Request) (s' : Session)
    (h : (srv.handle_request session uuid4 req).sessionAfter = some s') :
    s'.database = none := by
  simp only [Server.handle_request] at h
  repeat' split at h
  all_goals first
    | (injection h with h'
       subst h'
       exact releaseDatabase_database _)
    | injection h

/-- C2 witness: a handler that attaches the storage handle; after dispatch
the session's database field is absent. -/
theorem c2_storage_handle_released_witness :
    ((serverWith false [("x", dbAcquiringHandler)]).handle_request emptySession
        sampleUuid (okRequest "/api/x")).sessionAfter = some ⟨none, none⟩ ∧
    (⟨none, none⟩ : Session).database = none :=
  ⟨rfl, c2_storage_handle_released (serverWith false [("x", dbAcquiringHandler)])
    emptySession sampleUuid (okRequest "/api/x") ⟨none, none⟩ rfl⟩

/-- C4 (amended): for every registered endpoint name `n` that contains no
path separator and does not itself end in the reserved `".json"` suffix,
routing `"/api/n"` and `"/api/n.json"` yields the same endpoint name `n` —
hence the same registry entry — with body format `form` for the first and
`json` for the second. -/
theorem c4_route_form_and_json (handlers : List (String × Handler)) (n : String)
    (h : Handler) (hs : ∀ c ∈ n.data, c ≠ '/') (hj : pyEndsWith n ".json" = false)
    (hreg : List.lookup n handlers = some h) :
    route ("/api/" ++ n) = (n, "form") ∧
    route ("/api/" ++ n ++ ".json") = (n, "json") ∧
    List.lookup (route ("/api/" ++ n)).1 handlers = some h ∧
    List.lookup (route ("/api/" ++ n ++ ".json")).1 handlers = some h := by
  refine ⟨route_api_form n hs hj, route_api_json n hs, ?_, ?_⟩
  · rw [route_api_form n hs hj]
    exact hreg
  · rw [route_api_json n hs]
    exact hreg

/-- C4 witness: the registered name `"repository"`. -/
theorem c4_route_form_and_json_witness :
    route ("/api/" ++ "repository") = ("repository", "form") ∧
    route ("/api/" ++ "repository" ++ ".json") = ("repository", "json") ∧
    List.lookup (route ("/api/" ++ "repository")).1 [("repository", idleHandler)] =
      some idleHandler ∧
    List.lookup (route ("/api/" ++ "repository" ++ ".json")).1 [("repository", idleHandler)] =
      some idleHandler :=
  c4_route_form_and_json [("repository", idleHandler)] "repository" idleHandler
    (by decide) (by decide) rfl

/-- C4 counterexample: a registered endpoint name may itself end in
`".json"` (a module file `x.json.py` registers `"x.json"`); then
`"/api/x.json"` routes to the stripped name `"x"`, not to the registered
entry, so the claim's universal statement fails. -/
theorem c4_routing_counterexample :
    List.lookup "x.json" [("x.json", idleHandler)] = some idleHandler ∧
    route ("/api/" ++ "x.json") ≠ ("x.json", "form") ∧
    ((serverWith false [("x.json", idleHandler)]).handle_request emptySession ""
        (okRequest "/api/x.json")).response.status = 404 ∧
    ((serverWith false [("x.json", idleHandler)]).handle_request emptySession ""
        (okRequest "/api/x.json")).handlerInvoked = false := by
  refine ⟨rfl, ?_, rfl, rfl⟩
  decide

/-- C5 (amended): for every request whose body parses successfully and whose
derived endpoint name is not registered, `handle_request` answers 404 with
body `"API Endpoint not found!"`, invokes no handler, and writes nothing to
the error stream. -/
theorem c5_unregistered_404 (srv : Server) (session : Session) (uuid4 : String)
    (req : Request) (indata : FormData)
    (hparse : req.parseFormdata (route req.path).2 = .ok indata)
    (hlookup : List.lookup (route req.path).1 srv.handlers = none) :
    (srv.handle_request session uuid4 req).response.status = 404 ∧
    (srv.handle_request session uuid4 req).response.text = "API Endpoint not found!" ∧
    (srv.handle_request session uuid4 req).handlerInvoked = false ∧
    (srv.handle_request session uuid4 req).stderrWrites = [] := by
  simp only [Server.handle_request, hparse, hlookup]
  exact ⟨trivial, trivial, trivial, trivial⟩

/-- C5 witness: `"/api/doesnotexist"` against an empty registry. -/
theorem c5_unregistered_404_witness :
    ((serverWith false []).handle_request emptySession sampleUuid
        (okRequest "/api/doesnotexist")).response.status = 404 ∧
    ((serverWith false []).handle_request emptySession sampleUuid
        (okRequest "/api/doesnotexist")).response.text = "API Endpoint not found!" ∧
    ((serverWith false []).handle_request emptySession sampleUuid
        (okRequest "/api/doesnotexist")).handlerInvoked = false ∧
    ((serverWith false []).handle_request emptySession sampleUuid
        (okRequest "/api/doesnotexist")).stderrWrites = [] :=
  c5_unregistered_404 (serverWith false []) emptySession sampleUuid
    (okRequest "/api/doesnotexist") [] rfl rfl

/-- C5 counterexample: when the body fails to parse, a request whose derived
endpoint name is unregistered is answered 400 with the validation message —
not 404 — so the claim's unconditional statement fails. -/
theorem c5_unregistered_counterexample :
    ¬ (((serverWith false []).handle_request emptySession ""
          ⟨"/api/doesnotexist", fun _ => .error "Invalid form data"⟩).response.status = 404 ∧
       ((serverWith false []).handle_request emptySession ""
          ⟨"/api/doesnotexist", fun _ => .error "Invalid form data"⟩).response.text =
        "API Endpoint not found!") := by
  intro h
  exact absurd h.1 (by decide)

/-- C9: body parsing precedes the registry lookup — a request whose body
fails to parse is answered 400 with the validation message, and no handler
is invoked, regardless of whether the derived endpoint name is registered. -/
theorem c9_parse_error_before_lookup (srv : Server) (session : Session)
    (uuid4 : String) (req : Request) (e : String)
    (hparse : req.parseFormdata (route req.path).2 = .error e) :
    (srv.handle_request session uuid4 req).response.status = 400 ∧
    (srv.handle_request session uuid4 req).response.text = e ∧
    (srv.handle_request session uuid4 req).handlerInvoked = false := by
  simp only [Server.handle_request, hparse]
  exact ⟨trivial, trivial, trivial⟩

/-- C9 witness: a malformed body on an unregistered endpoint name yields
400 with the message, never the 404 routing outcome. -/
theorem c9_parse_error_before_lookup_witness :
    ((serverWith false []).handle_request emptySession sampleUuid
        ⟨"/api/doesnotexist", fun _ => .error "Invalid JSON body"⟩).response.status = 400 ∧
    ((serverWith false []).handle_request emptySession sampleUuid
        ⟨"/api/doesnotexist", fun _ => .error "Invalid JSON body"⟩).response.text =
      "Invalid JSON body" ∧
    ((serverWith false []).handle_request emptySession sampleUuid
        ⟨"/api/doesnotexist", fun _ => .error "Invalid JSON body"⟩).handlerInvoked = false :=
  c9_parse_error_before_lookup (serverWith false []) emptySession sampleUuid
    ⟨"/api/doesnotexist", fun _ => .error "Invalid JSON body"⟩ "Invalid JSON body" rfl

/-- C1 (amended): when a handler raises and the traceback-disclosure flag is
false, `handle_request` answers 500 with a body holding only the short error
id (the first 18 characters of a fresh uuid) and a generic message — no
stack-frame text, since the body is this fixed template whatever the
traceback was — and writes to the operational error stream one announcement
line carrying the id in parentheses, followed by the traceback lines, each
prefixed with that same id. -/
theorem c1_error_id_opaque_failure (srv : Server) (session : Session)
    (uuid4 : String) (req : Request) (indata : FormData) (h : Handler)
    (err : String) (s1 : Session)
    (hparse : req.parseFormdata (route req.path).2 = .ok indata)
    (hlookup : List.lookup (route req.path).1 srv.handlers = some h)
    (hexec : h.exec session indata = .exc err s1)
    (htb : srv.config.server.traceback = false) :
    (srv.handle_request session uuid4 req).response.status = 500 ∧
    (srv.handle_request session uuid4 req).response.text =
      "API error occurred. The application journal will have information. Error ID: " ++
        pyTake uuid4 18 ∧
    (srv.handle_request session uuid4 req).stderrWrites =
      ("API Endpoint " ++ req.path ++ " got into trouble (" ++ pyTake uuid4 18 ++ "): \n") ::
        (pySplitChar err '\n').map
          (fun line => pyTake uuid4 18 ++ ": " ++ line ++ "\n") ∧
    ∀ line ∈ ((srv.handle_request session uuid4 req).stderrWrites).tail,
      ∃ rest, line = pyTake uuid4 18 ++ rest := by
  refine ⟨?_, ?_, ?_, ?_⟩ <;>
    simp only [Server.handle_request, hparse, hlookup, hexec, htb, Bool.false_eq_true,
      if_false]
  · rfl
  · intro line hline
    simp only [List.tail_cons] at hline
    rcases List.mem_map.mp hline with ⟨l, _, rfl⟩
    exact ⟨": " ++ l ++ "\n", by simp [String.append_assoc]⟩

/-- C1 witness: a concrete raising handler in disclosure-disabled mode. -/
theorem c1_error_id_opaque_failure_witness :
    ((serverWith false [("x", raisingHandler)]).handle_request emptySession
        sampleUuid (okRequest "/api/x")).response.status = 500 ∧
    ((serverWith false [("x", raisingHandler)]).handle_request emptySession
        sampleUuid (okRequest "/api/x")).response.text =
      "API error occurred. The application journal will have information. Error ID: " ++
        pyTake sampleUuid 18 ∧
    ((serverWith false [("x", raisingHandler)]).handle_request emptySession
        sampleUuid (okRequest "/api/x")).stderrWrites =
      ("API Endpoint " ++ "/api/x" ++ " got into trouble (" ++ pyTake sampleUuid 18 ++
          "): \n") ::
        (pySplitChar "Traceback (most recent call last):\n  boom" '\n').map
          (fun line => pyTake sampleUuid 18 ++ ": " ++ line ++ "\n") ∧
    ∀ line ∈ (((serverWith false [("x", raisingHandler)]).handle_request emptySession
        sampleUuid (okRequest "/api/x")).stderrWrites).tail,
      ∃ rest, line = pyTake sampleUuid 18 ++ rest :=
  c1_error_id_opaque_failure (serverWith false [("x", raisingHandler)]) emptySession
    sampleUuid (okRequest "/api/x") [] raisingHandler
    "Traceback (most recent call last):\n  boom" emptySession rfl rfl rfl rfl

/-- C1 counterexample: the first line written to the error stream for the
failure — the announcement line — is not prefixed with the error id (the id
appears in parentheses mid-line), so "every line ... is prefixed with that
same id" fails. -/
theorem c1_log_prefix_counterexample :
    (((serverWith false [("x", raisingHandler)]).handle_request emptySession
        sampleUuid (okRequest "/api/x")).stderrWrites.all
      (fun line => (pyTake sampleUuid 18).data.isPrefixOf line.data)) = false := by
  decide

/-- C3: when a handler raises, the traceback text in the disclosure-enabled
500 body is exactly the text whose lines are written — id-prefixed — to the
operational error stream in disclosure-disabled mode: the body is the
fixed prefix followed by the formatted traceback `err`, the enabled mode
logs nothing, and the disabled mode's log (after its announcement line) is
exactly the lines of that same `err`, each wrapped with the id prefix. -/
theorem c3_disclosure_modes_same_traceback (handlers : List (String × Handler))
    (session : Session) (uuid4 : String) (req : Request) (indata : FormData)
    (h : Handler) (err : String) (s1 : Session)
    (hparse : req.parseFormdata (route req.path).2 = .ok indata)
    (hlookup : List.lookup (route req.path).1 handlers = some h)
    (hexec : h.exec session indata = .exc err s1) :
    ((serverWith true handlers).handle_request session uuid4 req).response.text =
      "API error occurred: \n" ++ err ∧
    ((serverWith true handlers).handle_request session uuid4 req).stderrWrites = [] ∧
    (((serverWith false handlers).handle_request session uuid4 req).stderrWrites).tail =
      (pySplitChar err '\n').map
        (fun line => pyTake uuid4 18 ++ ": " ++ line ++ "\n") := by
  refine ⟨?_, ?_, ?_⟩ <;>
    simp only [Server.handle_request, serverWith, hparse, hlookup, hexec] <;>
    rfl

/-- C3 witness: the concrete raising handler under both disclosure modes. -/
theorem c3_disclosure_modes_same_traceback_witness :
    ((serverWith true [("x", raisingHandler)]).handle_request emptySession
        sampleUuid (okRequest "/api/x")).response.text =
      "API error occurred: \n" ++ "Traceback (most recent call last):\n  boom" ∧
    ((serverWith true [("x", raisingHandler)]).handle_request emptySession
        sampleUuid (okRequest "/api/x")).stderrWrites = [] ∧
    (((serverWith false [("x", raisingHandler)]).handle_request emptySession
        sampleUuid (okRequest "/api/x")).stderrWrites).tail =
      (pySplitChar "Traceback (most recent call last):\n  boom" '\n').map
        (fun line => pyTake sampleUuid 18 ++ ": " ++ line ++ "\n") :=
  c3_disclosure_modes_same_traceback [("x", raisingHandler)] emptySession
    sampleUuid (okRequest "/api/x") [] raisingHandler
    "Traceback (most recent call last):\n  boom" emptySession rfl rfl rfl

/-- C6: a handler result that is a truthy structured value and not a raw
response is serialized as JSON with status 200, and the `Content-Length`
header equals the UTF-8 byte length of the encoded body (the code stores the
code-point count, which coincides with the byte count because the encoder
output is pure ASCII). -/
theorem c6_json_serialization (srv : Server) (session : Session) (uuid4 : String)
    (req : Request) (indata : FormData) (h : Handler) (v : Json) (s1 : Session)
    (hparse : req.parseFormdata (route req.path).2 = .ok indata)
    (hlookup : List.lookup (route req.path).1 srv.handlers = some h)
    (hexec : h.exec session indata = .ok (.json v) s1)
    (htruthy : v.truthy = true) :
    (srv.handle_request session uuid4 req).response.status = 200 ∧
    (srv.handle_request session uuid4 req).response.text = jsonDumps v ∧
    ("Content-Length", natDecimal ((jsonDumps v).utf8ByteSize)) ∈
      (srv.handle_request session uuid4 req).response.headers := by
  simp only [Server.handle_request, hparse, hlookup, hexec, htruthy, if_true]
  refine ⟨trivial, trivial, ?_⟩
  rw [utf8ByteSize_of_ascii _ (jsonDumps_ascii v)]
  simp

/-- C6 witness: a handler returning `{"okay": true}`. -/
theorem c6_json_serialization_witness :
    ((serverWith false [("x", okJsonHandler)]).handle_request emptySession
        sampleUuid (okRequest "/api/x")).response.status = 200 ∧
    ((serverWith false [("x", okJsonHandler)]).handle_request emptySession
        sampleUuid (okRequest "/api/x")).response.text =
      jsonDumps (.obj [("okay", .bool true)]) ∧
    ("Content-Length", natDecimal ((jsonDumps (.obj [("okay", .bool true)])).utf8ByteSize)) ∈
      ((serverWith false [("x", okJsonHandler)]).handle_request emptySession
        sampleUuid (okRequest "/api/x")).response.headers :=
  c6_json_serialization (serverWith false [("x", okJsonHandler)]) emptySession
    sampleUuid (okRequest "/api/x") [] okJsonHandler (.obj [("okay", .bool true)])
    emptySession rfl rfl rfl rfl

/-- C7: a handler invocation that returns an empty or absent result (and not
a raw response) is answered 404 with body `"Content not found"` — a body
distinct from the unregistered-endpoint body. -/
theorem c7_empty_result_content_not_found (srv : Server) (session : Session)
    (uuid4 : String) (req : Request) (indata : FormData) (h : Handler)
    (out : Output) (s1 : Session)
    (hparse : req.parseFormdata (route req.path).2 = .ok indata)
    (hlookup : List.lookup (route req.path).1 srv.handlers = some h)
    (hexec : h.exec session indata = .ok out s1)
    (hempty : out = .none ∨ ∃ v, out = .json v ∧ v.truthy = false) :
    (srv.handle_request session uuid4 req).response.status = 404 ∧
    (srv.handle_request session uuid4 req).response.text = "Content not found" ∧
    "Content not found" ≠ "API Endpoint not found!" := by
  rcases hempty with rfl | ⟨v, rfl, hv⟩
  · simp only [Server.handle_request, hparse, hlookup, hexec]
    exact ⟨trivial, trivial, by decide⟩
  · simp only [Server.handle_request, hparse, hlookup, hexec, hv, Bool.false_eq_true,
      if_false]
    exact ⟨trivial, trivial, by decide⟩

/-- C7 witness: a handler returning the empty mapping `{}`. -/
theorem c7_empty_result_content_not_found_witness :
    ((serverWith false [("x", Handler.mk (fun s _ => .ok (.json (.obj [])) s))]).handle_request
        emptySession sampleUuid (okRequest "/api/x")).response.status = 404 ∧
    ((serverWith false [("x", Handler.mk (fun s _ => .ok (.json (.obj [])) s))]).handle_request
        emptySession sampleUuid (okRequest "/api/x")).response.text = "Content not found" ∧
    "Content not found" ≠ "API Endpoint not found!" :=
  c7_empty_result_content_not_found
    (serverWith false [("x", Handler.mk (fun s _ => .ok (.json (.obj [])) s))])
    emptySession sampleUuid (okRequest "/api/x") []
    (Handler.mk (fun s _ => .ok (.json (.obj [])) s)) (.json (.obj [])) emptySession
    rfl rfl rfl (Or.inr ⟨.obj [], rfl, rfl⟩)

/-- C8: a request dispatched to the repository endpoint with a session that
carries no credentials makes `process` return the not-logged-in mapping, and
the client receives that mapping serialized as JSON with status 200. -/
theorem c8_repository_login_required (createAction : Session → FormData → Option Json)
    (srv : Server) (session : Session) (uuid4 : String) (req : Request)
    (indata : FormData)
    (hparse : req.parseFormdata (route req.path).2 = .ok indata)
    (hlookup : List.lookup (route req.path).1 srv.handlers =
      some (repository_register createAction))
    (hcreds : session.credentials = none) :
    repository_process createAction session indata =
      some (.obj [("okay", .bool false),
        ("message", .str "You need to be logged in to access this end point")]) ∧
    (srv.handle_request session uuid4 req).response.status = 200 ∧
    (srv.handle_request session uuid4 req).response.text =
      jsonDumps (.obj [("okay", .bool false),
        ("message", .str "You need to be logged in to access this end point")]) := by
  have hproc : repository_process createAction session indata =
      some (.obj [("okay", .bool false),
        ("message", .str "You need to be logged in to access this end point")]) := by
    unfold repository_process
    rw [hcreds]
    rfl
  have hexec : (repository_register createAction).exec session indata =
      .ok (.json (.obj [("okay", .bool false),
        ("message", .str "You need to be logged in to access this end point")])) session := by
    unfold repository_register
    simp only [hproc]
    rfl
  refine ⟨hproc, ?_, ?_⟩ <;>
    simp only [Server.handle_request, hparse, hlookup, hexec] <;>
    rfl

/-- C8 witness: the registered repository endpoint, an anonymous session. -/
theorem c8_repository_login_required_witness :
    repository_process noCreate emptySession [] =
      some (.obj [("okay", .bool false),
        ("message", .str "You need to be logged in to access this end point")]) ∧
    ((serverWith false [("repository", repository_register noCreate)]).handle_request
        emptySession sampleUuid (okRequest "/api/repository")).response.status = 200 ∧
    ((serverWith false [("repository", repository_register noCreate)]).handle_request
        emptySession sampleUuid (okRequest "/api/repository")).response.text =
      jsonDumps (.obj [("okay", .bool false),
        ("message", .str "You need to be logged in to access this end point")]) :=
  c8_repository_login_required noCreate
    (serverWith false [("repository", repository_register noCreate)]) emptySession
    sampleUuid (okRequest "/api/repository") [] rfl rfl rfl

/-- C10: with credentials present and an `"action"` field absent or different
from `"create"`, the repository endpoint's `process` falls through without an
explicit return — an absent result — which `handle_request` surfaces as 404
with body `"Content not found"`. -/
theorem c10_repository_fallthrough (createAction : Session → FormData → Option Json)
    (srv : Server) (session : Session) (uuid4 : String) (req : Request)
    (indata : FormData) (c : Credentials)
    (hparse : req.parseFormdata (route req.path).2 = .ok indata)
    (hlookup : List.lookup (route req.path).1 srv.handlers =
      some (repository_register createAction))
    (hcreds : session.credentials = some c)
    (haction : ∀ a, indata.lookup "action" = some (.str a) → a ≠ "create") :
    repository_process createAction session indata = none ∧
    (srv.handle_request session uuid4 req).response.status = 404 ∧
    (srv.handle_request session uuid4 req).response.text = "Content not found" := by
  have hproc : repository_process createAction session indata = none := by
    unfold repository_process
    rw [hcreds]
    simp only [Option.isNone_some, Bool.false_eq_true, if_false]
    cases hl : indata.lookup "action" with
    | none => rfl
    | some v =>
      cases v with
      | str a =>
        have hne : a ≠ "create" := haction a hl
        simp [hne]
      | null => rfl
      | bool b => rfl
      | num n => rfl
      | arr items => rfl
      | obj entries => rfl
  have hexec : (repository_register createAction).exec session indata =
      .ok .none session := by
    unfold repository_register
    simp only [hproc]
    rfl
  refine ⟨hproc, ?_, ?_⟩ <;>
    simp only [Server.handle_request, hparse, hlookup, hexec]

/-- C10 witness: a logged-in session and a body without an `"action"` field. -/
theorem c10_repository_fallthrough_witness :
    repository_process noCreate userSession [] = none ∧
    ((serverWith false [("repository", repository_register noCreate)]).handle_request
        userSession sampleUuid (okRequest "/api/repository")).response.status = 404 ∧
    ((serverWith false [("repository", repository_register noCreate)]).handle_request
        userSession sampleUuid (okRequest "/api/repository")).response.text =
      "Content not found" :=
  c10_repository_fallthrough noCreate
    (serverWith false [("repository", repository_register noCreate)]) userSession
    sampleUuid (okRequest "/api/repository") [] ⟨"humbedooh", false, false⟩
    rfl rfl rfl (fun _ ha => Option.noConfusion ha)

end Boxer
